import Mathlib

/-!
Shallow embedding of the quillscroll API-gateway core:
the `firecrawl-search` edge function (rate limiter + operation proxy),
the `cleanup-firecrawl-logs` edge function (retention sweeper), and the
admin analytics aggregation of `AdminFirecrawlDashboard`.

Timestamps are milliseconds since epoch, modelled as `Int`
(JavaScript `Date.now()` arithmetic).  Database reads and writes, the
token introspection and the upstream `fetch` are modelled as oracle
fields of an environment record: the handler is the pure function from
that environment to its observable effects (HTTP response, ledger
inserts, console lines, outbound request).
-/

namespace QuillScroll

/-- A stored row of the `firecrawl_usage_logs` table (the Usage Ledger). -/
structure LedgerRow where
  user_id : String
  function_name : String
  request_url : Option String
  request_query : Option String
  status_code : Option Int
  success : Bool
  error_message : Option String
  created_at : Int
deriving DecidableEq

/-- The payload of an `insert` into `firecrawl_usage_logs` as built by the
gateway (no `id`/`created_at`: those are assigned by the store). -/
structure InsertRow where
  user_id : String
  function_name : String
  request_query : Option String
  status_code : Option Int
  success : Bool
  error_message : Option String
deriving DecidableEq

/-- Body of a JSON response produced by the gateway. -/
inductive RespBody where
  /-- Null body, as in the OPTIONS preflight response. -/
  | empty : RespBody
  /-- A JSON object with success:false and the given error text. -/
  | errJson : String → RespBody
  /-- A JSON object with success:false, the given error text and a
  retryAfter field. -/
  | rateJson : String → Nat → RespBody
  /-- The upstream response body relayed verbatim. -/
  | relay : String → RespBody
deriving DecidableEq

/-- An HTTP response of the search gateway: status, body and the
rate-limit related headers it sets. -/
structure HttpResp where
  status : Nat
  body : RespBody
  retryAfterHeader : Option Nat
  limitHeader : Option Nat
  remainingHeader : Option Int
deriving DecidableEq

/-- The outbound request the gateway sends to
`https://api.firecrawl.dev/v1/search`. -/
structure OutboundRequest where
  url : String
  authorization : String
  query : String
  limit : Nat
  lang : Option String
  country : Option String
  tbs : Option String
  scrapeOptions : Option String
deriving DecidableEq

/-- Options object of the search request body. -/
structure SearchOptions where
  limit : Option Nat
  lang : Option String
  country : Option String
  tbs : Option String
  scrapeOptions : Option String
deriving DecidableEq

/-- A parsed JSON request body of the search gateway. -/
structure SearchBody where
  query : Option String
  options : Option SearchOptions
deriving DecidableEq

/-- The JSON body the upstream provider answered with, as far as the
gateway inspects it: the HTTP status, the optional `error` field of the
parsed body, and the raw body text that is relayed on success. -/
structure UpstreamResponse where
  status : Nat
  errorField : Option String
  bodyText : String
deriving DecidableEq

instance {ε α : Type} [DecidableEq ε] [DecidableEq α] : DecidableEq (Except ε α) := fun x y =>
  match x, y with
  | Except.error a, Except.error b => decidable_of_iff (a = b) (by simp)
  | Except.error _, Except.ok _ => isFalse (by simp)
  | Except.ok _, Except.error _ => isFalse (by simp)
  | Except.ok a, Except.ok b => decidable_of_iff (a = b) (by simp)

/-- Environment of one invocation of the `firecrawl-search` handler.
Each oracle field holds the outcome of one external interaction, in the
order the handler performs them. -/
structure SearchEnv where
  /-- HTTP method of the inbound request. -/
  method : String
  /-- The `Authorization` header, if present. -/
  authHeader : Option String
  /-- Outcome of `supabase.auth.getUser recoveredToken`: the user id when the
  token is valid, `none` on any verification error. -/
  tokenUser : Option String
  /-- Current contents of `firecrawl_usage_logs`. -/
  ledger : List LedgerRow
  /-- Error returned by the rate-limit count query, if any. -/
  countError : Option String
  /-- Value of `Date.now()` at the start of the invocation, in milliseconds. -/
  now : Int
  /-- Outcome of `req.json()`: the parsed body, or the thrown message. -/
  body : Except String SearchBody
  /-- Value of the FIRECRAWL_API_KEY environment variable. -/
  apiKey : Option String
  /-- Error returned by the usage-log insert, if any.  The handler never
  reads it: the source awaits the insert and discards its result. -/
  insertError : Option String
  /-- Outcome of the upstream fetch together with `response.json()`:
  the response, or the thrown transport error message. -/
  fetchResult : Except String UpstreamResponse
deriving DecidableEq

/-- Observable effects of one handler invocation. -/
structure HandlerResult where
  response : HttpResp
  inserts : List InsertRow
  logLines : List String
  outbound : Option OutboundRequest
deriving DecidableEq

/-- Constant `RATE_LIMIT_MAX_REQUESTS`. -/
def RATE_LIMIT_MAX_REQUESTS : Nat := 20

/-- Constant `RATE_LIMIT_WINDOW_SECONDS`. -/
def RATE_LIMIT_WINDOW_SECONDS : Nat := 60

/-- Char-list test that `pre` starts `l` (JavaScript `startsWith`). -/
def leadsWith : List Char → List Char → Bool
  | [], _ => true
  | _ :: _, [] => false
  | a :: pre, b :: l => a == b && leadsWith pre l

/-- Test mirroring the startsWith Bearer check on the auth header. -/
def hasBearer (h : String) : Bool := leadsWith "Bearer ".data h.data

/-- JavaScript falsiness of an optional string: absent or empty. -/
def strFalsy : Option String → Bool
  | none => true
  | some s => s == ""

/-- JavaScript `o || d` for an optional string versus a default. -/
def jsOr (o : Option String) (d : String) : String :=
  match o with
  | none => d
  | some s => if s = "" then d else s

/-- The rate-limit count query: rows of `userId` with
`created_at >= now - RATE_LIMIT_WINDOW_SECONDS * 1000`. -/
def windowCount (ledger : List LedgerRow) (userId : String) (now : Int) : Nat :=
  (ledger.filter (fun r =>
    decide (r.user_id = userId) &&
    decide (now - (RATE_LIMIT_WINDOW_SECONDS : Int) * 1000 ≤ r.created_at))).length

/-- The row inserted when a request is rejected by the rate limiter. -/
def rateLimitRow (userId : String) : InsertRow :=
  { user_id := userId
    function_name := "search"
    request_query := none
    status_code := none
    success := false
    error_message := some "Rate limit exceeded" }

/-- The usage row inserted after the upstream fetch resolved. -/
def usageRow (userId q : String) (up : UpstreamResponse) : InsertRow :=
  { user_id := userId
    function_name := "search"
    request_query := some q
    status_code := some (up.status : Int)
    success := decide (200 ≤ up.status ∧ up.status < 300)
    error_message :=
      if 200 ≤ up.status ∧ up.status < 300 then none
      else some (jsOr up.errorField ("Request failed with status " ++ toString up.status)) }

/-- The outbound search request: `options.limit || 10` with the other
option fields passed through. -/
def mkOutbound (key q : String) (opts : Option SearchOptions) : OutboundRequest :=
  { url := "https://api.firecrawl.dev/v1/search"
    authorization := "Bearer " ++ key
    query := q
    limit :=
      match opts with
      | none => 10
      | some o =>
        match o.limit with
        | none => 10
        | some n => if n = 0 then 10 else n
    lang := (opts.map (fun o => o.lang)).join
    country := (opts.map (fun o => o.country)).join
    tbs := (opts.map (fun o => o.tbs)).join
    scrapeOptions := (opts.map (fun o => o.scrapeOptions)).join }

/-- A plain JSON error response with no rate-limit headers. -/
def errResp (status : Nat) (msg : String) : HttpResp :=
  { status := status
    body := RespBody.errJson msg
    retryAfterHeader := none
    limitHeader := none
    remainingHeader := none }

/-- The 429 response of the rate limiter. -/
def rateLimitedResp : HttpResp :=
  { status := 429
    body := RespBody.rateJson
      "Rate limit exceeded. Please wait before making more requests."
      RATE_LIMIT_WINDOW_SECONDS
    retryAfterHeader := some RATE_LIMIT_WINDOW_SECONDS
    limitHeader := some RATE_LIMIT_MAX_REQUESTS
    remainingHeader := some 0 }

/-- Lines 97-161 of the handler: body parse, query validation, key
lookup, upstream fetch, usage insert and relay.  `currentCount` is the
rate-limit count from the preceding stage. -/
def searchProceed (env : SearchEnv) (userId : String) (currentCount : Nat) :
    HandlerResult :=
  match env.body with
  | Except.error e =>
    { response := errResp 500 e
      inserts := []
      logLines := ["Error searching: " ++ e]
      outbound := none }
  | Except.ok b =>
    if strFalsy b.query then
      { response := errResp 400 "Query is required"
        inserts := []
        logLines := []
        outbound := none }
    else
      match b.query with
      | none =>
        { response := errResp 400 "Query is required"
          inserts := []
          logLines := []
          outbound := none }
      | some q =>
        if strFalsy env.apiKey then
          { response := errResp 500 "Firecrawl connector not configured"
            inserts := []
            logLines := ["FIRECRAWL_API_KEY not configured"]
            outbound := none }
        else
          match env.apiKey with
          | none =>
            { response := errResp 500 "Firecrawl connector not configured"
              inserts := []
              logLines := ["FIRECRAWL_API_KEY not configured"]
              outbound := none }
          | some key =>
            let ob := mkOutbound key q b.options
            match env.fetchResult with
            | Except.error e =>
              { response := errResp 500 e
                inserts := []
                logLines := ["Searching: " ++ q, "Error searching: " ++ e]
                outbound := some ob }
            | Except.ok up =>
              if 200 ≤ up.status ∧ up.status < 300 then
                { response :=
                  { status := 200
                    body := RespBody.relay up.bodyText
                    retryAfterHeader := none
                    limitHeader := some RATE_LIMIT_MAX_REQUESTS
                    remainingHeader :=
                      some ((RATE_LIMIT_MAX_REQUESTS : Int) - (currentCount : Int) - 1) }
                  inserts := [usageRow userId q up]
                  logLines := ["Searching: " ++ q, "Search successful"]
                  outbound := some ob }
              else
                { response := errResp up.status
                    (jsOr up.errorField ("Request failed with status " ++ toString up.status))
                  inserts := [usageRow userId q up]
                  logLines := ["Searching: " ++ q, "Firecrawl API error: " ++ up.bodyText]
                  outbound := some ob }

/-- Console output of the count read: an error line when it failed. -/
def countLogOf (env : SearchEnv) : List String :=
  match env.countError with
  | some m => ["Error checking rate limit: " ++ m]
  | none => []

/-- Fallback `count || 0` of the handler: on a count error the count comes
back null and the fallback yields `0`. -/
def currentCountOf (env : SearchEnv) (userId : String) : Nat :=
  match env.countError with
  | some _ => 0
  | none => windowCount env.ledger userId env.now

/-- Lines 54-161: the rate-limit stage followed by `searchProceed`. -/
def searchAfterAuth (env : SearchEnv) (userId : String) : HandlerResult :=
  let countLog := countLogOf env
  let currentCount := currentCountOf env userId
  if RATE_LIMIT_MAX_REQUESTS ≤ currentCount then
    { response := rateLimitedResp
      inserts := [rateLimitRow userId]
      logLines := countLog ++ ["Rate limit exceeded for user " ++ userId]
      outbound := none }
  else
    let r := searchProceed env userId currentCount
    { r with logLines := countLog ++ r.logLines }

/-- The whole `firecrawl-search` handler. -/
def searchHandler (env : SearchEnv) : HandlerResult :=
  if env.method = "OPTIONS" then
    { response :=
      { status := 200, body := RespBody.empty, retryAfterHeader := none
        limitHeader := none, remainingHeader := none }
      inserts := []
      logLines := []
      outbound := none }
  else
    match env.authHeader with
    | none =>
      { response := errResp 401 "Authentication required"
        inserts := []
        logLines := ["Missing or invalid authorization header"]
        outbound := none }
    | some h =>
      if hasBearer h then
        match env.tokenUser with
        | none =>
          { response := errResp 401 "Invalid authentication"
            inserts := []
            logLines := ["Invalid authentication token"]
            outbound := none }
        | some userId =>
          let r := searchAfterAuth env userId
          { r with logLines := ("Authenticated user: " ++ userId) :: r.logLines }
      else
        { response := errResp 401 "Authentication required"
          inserts := []
          logLines := ["Missing or invalid authorization header"]
          outbound := none }

/-! ## The `cleanup-firecrawl-logs` edge function (Retention Sweeper) -/

/-- Retention horizon of 30 days, i.e. `30 * 24 * 60 * 60 * 1000` ms. -/
def RETENTION_MS : Int := 30 * 24 * 60 * 60 * 1000

/-- Body of a JSON response of the cleanup handler. -/
structure CleanupResp where
  status : Nat
  success : Bool
  error : Option String
  message : Option String
  deletedCount : Option Nat
deriving DecidableEq

/-- Environment of one invocation of the cleanup handler. -/
structure CleanupEnv where
  method : String
  authHeader : Option String
  /-- Outcome of token introspection, when an auth header is validated. -/
  tokenUser : Option String
  /-- Whether the `user_roles` query found an admin row for that user. -/
  adminRow : Bool
  ledger : List LedgerRow
  now : Int
  /-- Error returned by the bulk delete, if any. -/
  deleteError : Option String
deriving DecidableEq

/-- Observable effects of one cleanup invocation: the response and the
ledger contents afterwards. -/
structure CleanupResult where
  response : CleanupResp
  ledgerAfter : List LedgerRow
  logLines : List String
deriving DecidableEq

/-- The delete stage, lines 152-179 of the cleanup function: delete rows
with `created_at < now - 30 days` and report the deleted count. -/
def cleanupDelete (env : CleanupEnv) (authLog : List String) : CleanupResult :=
  match env.deleteError with
  | some m =>
    { response :=
      { status := 500, success := false, error := some m
        message := none, deletedCount := none }
      ledgerAfter := env.ledger
      logLines := authLog ++ ["Error deleting old logs: " ++ m] }
  | none =>
    let cutoff := env.now - RETENTION_MS
    let deleted := env.ledger.filter (fun r => decide (r.created_at < cutoff))
    { response :=
      { status := 200, success := true, error := none
        message := some ("Deleted " ++ toString deleted.length ++ " logs older than 30 days")
        deletedCount := some deleted.length }
      ledgerAfter := env.ledger.filter (fun r => !decide (r.created_at < cutoff))
      logLines := authLog ++
        ["Cleanup complete: deleted " ++ toString deleted.length ++ " logs older than 30 days"] }

/-- The whole `cleanup-firecrawl-logs` handler. -/
def cleanupHandler (env : CleanupEnv) : CleanupResult :=
  if env.method = "OPTIONS" then
    { response :=
      { status := 200, success := true, error := none
        message := none, deletedCount := none }
      ledgerAfter := env.ledger
      logLines := [] }
  else
    match env.authHeader with
    | some h =>
      if hasBearer h then
        match env.tokenUser with
        | none =>
          { response :=
            { status := 401, success := false, error := some "Invalid authentication"
              message := none, deletedCount := none }
            ledgerAfter := env.ledger
            logLines := ["Invalid authentication token"] }
        | some userId =>
          if env.adminRow then
            cleanupDelete env ["Admin triggered cleanup: " ++ userId]
          else
            { response :=
              { status := 403, success := false, error := some "Admin access required"
                message := none, deletedCount := none }
              ledgerAfter := env.ledger
              logLines := ["User is not admin: " ++ userId] }
      else
        cleanupDelete env ["Cron job triggered cleanup"]
    | none => cleanupDelete env ["Cron job triggered cleanup"]

/-! ## Admin analytics aggregation (`AdminFirecrawlDashboard`) -/

/-- The dashboard query orders the ledger by `created_at` descending:
row `a` may precede row `b` when `b.created_at ≤ a.created_at`. -/
def moreRecent (a b : LedgerRow) : Prop := b.created_at ≤ a.created_at

instance : DecidableRel moreRecent := fun a b => Int.decLe b.created_at a.created_at

instance : IsTotal LedgerRow moreRecent :=
  ⟨fun a b => le_total b.created_at a.created_at⟩

instance : IsTrans LedgerRow moreRecent :=
  ⟨fun _ _ _ hab hbc => le_trans hbc hab⟩

/-- The dashboard logs query: order by `created_at` descending, limit 100. -/
def recentLogs (ledger : List LedgerRow) : List LedgerRow :=
  (List.insertionSort moreRecent ledger).take 100

/-- The `byFunction` reduce of the dashboard: a record mapping each
`function_name` to its count, modelled as a total function that is `0`
on absent keys (`acc[fn] || 0`). -/
def statsByFunction (logs : List LedgerRow) : String → Nat :=
  logs.foldl
    (fun acc log => fun fn => if fn = log.function_name then acc fn + 1 else acc fn)
    (fun _ => 0)

/-- Total request count `stats.totalRequests`. -/
def totalRequests (logs : List LedgerRow) : Nat := logs.length

/-! ## Helper lemmas -/

/-- On an authenticated non-preflight request the handler runs the
rate-limit stage and prepends the authentication log line. -/
theorem searchHandler_auth (env : SearchEnv) (h userId : String)
    (hm : env.method ≠ "OPTIONS") (hh : env.authHeader = some h)
    (hb : hasBearer h = true) (hu : env.tokenUser = some userId) :
    searchHandler env =
      { searchAfterAuth env userId with
        logLines := ("Authenticated user: " ++ userId) ::
          (searchAfterAuth env userId).logLines } := by
  simp [searchHandler, hm, hh, hb, hu]

/-! ## Claim theorems -/

/-- A 20-row burst for the C1 witness. -/
def burstRow (t : Int) : LedgerRow :=
  { user_id := "u1", function_name := "search", request_url := none
    request_query := some "cats", status_code := some 200
    success := true, error_message := none, created_at := t }

/-- Concrete environment for the C1 witness: 20 ledger rows of `u1`
inside the 60-second window. -/
def envC1 : SearchEnv :=
  { method := "POST", authHeader := some "Bearer tok", tokenUser := some "u1"
    ledger := (List.range 20).map (fun i => burstRow (1000000 + (i : Int)))
    countError := none, now := 1050000
    body := Except.ok { query := some "cats", options := none }
    apiKey := some "fc-key", insertError := none
    fetchResult := Except.ok { status := 200, errorField := none, bodyText := "results" } }

/-- C1: on an authenticated request whose count read succeeds, a window
count of at least 20 yields the 429 rate-limit response with retry-after
60 and exactly the one rate-limit ledger insert, while a count below 20
lets the request proceed to the body/validation/upstream stage. -/
theorem c1_rate_limiter (env : SearchEnv) (h userId : String)
    (hm : env.method ≠ "OPTIONS") (hh : env.authHeader = some h)
    (hb : hasBearer h = true) (hu : env.tokenUser = some userId)
    (hc : env.countError = none) :
    (RATE_LIMIT_MAX_REQUESTS ≤ windowCount env.ledger userId env.now →
      (searchHandler env).response = rateLimitedResp ∧
      (searchHandler env).response.status = 429 ∧
      (searchHandler env).response.retryAfterHeader = some 60 ∧
      (searchHandler env).inserts = [rateLimitRow userId]) ∧
    (windowCount env.ledger userId env.now < RATE_LIMIT_MAX_REQUESTS →
      searchHandler env =
        { searchProceed env userId (windowCount env.ledger userId env.now) with
          logLines := ("Authenticated user: " ++ userId) ::
            (searchProceed env userId (windowCount env.ledger userId env.now)).logLines }) := by
  rw [searchHandler_auth env h userId hm hh hb hu]
  have hcc : currentCountOf env userId = windowCount env.ledger userId env.now := by
    unfold currentCountOf
    rw [hc]
  have hcl : countLogOf env = [] := by
    unfold countLogOf
    rw [hc]
  unfold searchAfterAuth
  rw [hcc, hcl]
  constructor
  · intro hge
    rw [if_pos hge]
    refine ⟨rfl, rfl, rfl, rfl⟩
  · intro hlt
    rw [if_neg (by omega)]
    simp

/-- Witness for C1: the concrete over-limit environment is rejected. -/
theorem c1_witness :
    RATE_LIMIT_MAX_REQUESTS ≤ windowCount envC1.ledger "u1" envC1.now ∧
    (searchHandler envC1).response.status = 429 ∧
    (searchHandler envC1).response.retryAfterHeader = some 60 ∧
    (searchHandler envC1).inserts = [rateLimitRow "u1"] :=
  ⟨by decide,
    (((c1_rate_limiter envC1 "Bearer tok" "u1" (by decide) rfl (by decide) rfl
      rfl).1 (by decide)).2)⟩

/-- Concrete environment for the C6 witness: authenticated, empty
ledger, empty query string. -/
def envC6 : SearchEnv :=
  { method := "POST", authHeader := some "Bearer tok", tokenUser := some "u6"
    ledger := [], countError := none, now := 1000000
    body := Except.ok { query := some "", options := none }
    apiKey := some "fc-key", insertError := none
    fetchResult := Except.ok { status := 200, errorField := none, bodyText := "results" } }

/-- C6: an authenticated request under the rate limit whose body parses
but carries a missing or empty query is answered with 400 "Query is
required"; no ledger insert and no outbound request are made. -/
theorem c6_invalid_target (env : SearchEnv) (h userId : String) (b : SearchBody)
    (hm : env.method ≠ "OPTIONS") (hh : env.authHeader = some h)
    (hb : hasBearer h = true) (hu : env.tokenUser = some userId)
    (hlt : currentCountOf env userId < RATE_LIMIT_MAX_REQUESTS)
    (hbody : env.body = Except.ok b) (hq : strFalsy b.query = true) :
    (searchHandler env).response = errResp 400 "Query is required" ∧
    (searchHandler env).inserts = [] ∧
    (searchHandler env).outbound = none := by
  rw [searchHandler_auth env h userId hm hh hb hu]
  unfold searchAfterAuth
  rw [if_neg (by omega)]
  unfold searchProceed
  rw [hbody]
  simp [hq]

/-- Witness for C6. -/
theorem c6_witness :
    currentCountOf envC6 "u6" < RATE_LIMIT_MAX_REQUESTS ∧
    (searchHandler envC6).response = errResp 400 "Query is required" ∧
    (searchHandler envC6).inserts = [] ∧
    (searchHandler envC6).outbound = none :=
  ⟨by decide,
    c6_invalid_target envC6 "Bearer tok" "u6" { query := some "", options := none }
      (by decide) rfl (by decide) rfl (by decide) rfl (by decide)⟩

/-- Concrete environment for the C10 witness: over-limit caller whose
request body does not even parse. -/
def envC10 : SearchEnv :=
  { method := "POST", authHeader := some "Bearer tok", tokenUser := some "u1"
    ledger := (List.range 20).map (fun i => burstRow (1000000 + (i : Int)))
    countError := none, now := 1050000
    body := Except.error "Unexpected end of JSON input"
    apiKey := some "fc-key", insertError := none
    fetchResult := Except.ok { status := 200, errorField := none, bodyText := "results" } }

/-- C10: the rate limiter runs before the body is read or the query
validated — for an authenticated over-limit caller the result is the
429 response plus the rate-limit ledger insert, and it is the same for
every request body, parseable or not. -/
theorem c10_limiter_precedes_body (env : SearchEnv) (h userId : String)
    (hm : env.method ≠ "OPTIONS") (hh : env.authHeader = some h)
    (hb : hasBearer h = true) (hu : env.tokenUser = some userId)
    (hc : env.countError = none)
    (hge : RATE_LIMIT_MAX_REQUESTS ≤ windowCount env.ledger userId env.now) :
    (∀ b2 : Except String SearchBody,
      searchHandler { env with body := b2 } = searchHandler env) ∧
    (searchHandler env).response.status = 429 ∧
    (searchHandler env).inserts = [rateLimitRow userId] := by
  have key : ∀ env2 : SearchEnv, env2.method = env.method →
      env2.authHeader = env.authHeader → env2.tokenUser = env.tokenUser →
      env2.countError = env.countError → env2.ledger = env.ledger →
      env2.now = env.now →
      searchHandler env2 =
        { response := rateLimitedResp
          inserts := [rateLimitRow userId]
          logLines := ["Authenticated user: " ++ userId,
            "Rate limit exceeded for user " ++ userId]
          outbound := none } := by
    intro env2 e1 e2 e3 e4 e5 e6
    rw [searchHandler_auth env2 h userId (by rw [e1]; exact hm) (by rw [e2]; exact hh)
      hb (by rw [e3]; exact hu)]
    unfold searchAfterAuth
    have hcc : currentCountOf env2 userId = windowCount env.ledger userId env.now := by
      unfold currentCountOf
      rw [e4, hc, e5, e6]
    have hcl : countLogOf env2 = [] := by
      unfold countLogOf
      rw [e4, hc]
    rw [hcc, hcl, if_pos hge]
    rfl
  refine ⟨fun b2 => ?_, ?_, ?_⟩
  · rw [key { env with body := b2 } rfl rfl rfl rfl rfl rfl, key env rfl rfl rfl rfl rfl rfl]
  · rw [key env rfl rfl rfl rfl rfl rfl]
    rfl
  · rw [key env rfl rfl rfl rfl rfl rfl]

/-- Witness for C10: an over-limit caller with a malformed body still
gets 429 and an audit row. -/
theorem c10_witness :
    RATE_LIMIT_MAX_REQUESTS ≤ windowCount envC10.ledger "u1" envC10.now ∧
    (searchHandler envC10).response.status = 429 ∧
    (searchHandler envC10).inserts = [rateLimitRow "u1"] :=
  ⟨by decide,
    ((c10_limiter_precedes_body envC10 "Bearer tok" "u1" (by decide) rfl (by decide)
      rfl rfl (by decide)).2)⟩

/-- The proxy stage writes at most one ledger row. -/
theorem searchProceed_len (env : SearchEnv) (userId : String) (c : Nat) :
    (searchProceed env userId c).inserts.length ≤ 1 := by
  unfold searchProceed
  repeat' split
  all_goals simp

/-- The proxy stage writes no ledger row when the body fails to parse,
the query is falsy, the key is unconfigured, or the fetch throws. -/
theorem searchProceed_no_insert (env : SearchEnv) (userId : String) (c : Nat)
    (hz : (∃ e, env.body = Except.error e) ∨
      (∃ b, env.body = Except.ok b ∧ strFalsy b.query = true) ∨
      strFalsy env.apiKey = true ∨
      (∃ e, env.fetchResult = Except.error e)) :
    (searchProceed env userId c).inserts = [] := by
  unfold searchProceed
  rcases hz with ⟨e, he⟩ | ⟨b, hb2, hq⟩ | hk | ⟨e, he⟩ <;>
    (repeat' split) <;> simp_all

/-- The proxy stage writes exactly the usage row once the upstream fetch
resolved to a response. -/
theorem searchProceed_usage_insert (env : SearchEnv) (userId : String) (c : Nat)
    (b : SearchBody) (q : String) (up : UpstreamResponse)
    (hbody : env.body = Except.ok b) (hq : b.query = some q) (hq2 : q ≠ "")
    (hkey : strFalsy env.apiKey = false)
    (hfetch : env.fetchResult = Except.ok up) :
    (searchProceed env userId c).inserts = [usageRow userId q up] := by
  unfold searchProceed
  cases hk : env.apiKey with
  | none => rw [hk] at hkey; simp [strFalsy] at hkey
  | some k =>
    rw [hk] at hkey
    simp only [strFalsy] at hkey
    rw [beq_eq_false_iff_ne] at hkey
    simp [hbody, hq, hfetch, strFalsy, hq2, hkey]
    split <;> rfl

/-- Concrete environment refuting C2: authenticated, under the limit,
but the query string is empty. -/
def envC2 : SearchEnv :=
  { method := "POST", authHeader := some "Bearer tok", tokenUser := some "u2"
    ledger := [], countError := none, now := 1000000
    body := Except.ok { query := some "", options := none }
    apiKey := some "fc-key", insertError := none
    fetchResult := Except.ok { status := 200, errorField := none, bodyText := "results" } }

/-- Counterexample to C2: an invocation that passes authentication can
append zero ledger entries — the empty-query validation failure writes
nothing. -/
theorem c2_counterexample :
    envC2.authHeader = some "Bearer tok" ∧ hasBearer "Bearer tok" = true ∧
    envC2.tokenUser = some "u2" ∧
    (searchHandler envC2).response.status = 400 ∧
    (searchHandler envC2).inserts = [] := by decide

/-- C2 amended: an authenticated invocation appends at most one ledger
entry; it appends exactly one when rejected by the rate limiter (the
rate-limit row) or when the upstream fetch resolved to a response (the
usage row, whose success flag is set exactly when the upstream status
is 2xx); it appends none when the body fails to parse, the query is
missing or empty, the key is unconfigured, or the fetch throws. -/
theorem c2_audit_trail (env : SearchEnv) (h userId : String)
    (hm : env.method ≠ "OPTIONS") (hh : env.authHeader = some h)
    (hb : hasBearer h = true) (hu : env.tokenUser = some userId) :
    ((searchHandler env).inserts.length ≤ 1) ∧
    (RATE_LIMIT_MAX_REQUESTS ≤ currentCountOf env userId →
      (searchHandler env).inserts = [rateLimitRow userId]) ∧
    (∀ b q up, currentCountOf env userId < RATE_LIMIT_MAX_REQUESTS →
      env.body = Except.ok b → b.query = some q → q ≠ "" →
      strFalsy env.apiKey = false → env.fetchResult = Except.ok up →
      (searchHandler env).inserts = [usageRow userId q up] ∧
      ((usageRow userId q up).success = true ↔ 200 ≤ up.status ∧ up.status < 300)) ∧
    (currentCountOf env userId < RATE_LIMIT_MAX_REQUESTS →
      ((∃ e, env.body = Except.error e) ∨
        (∃ b, env.body = Except.ok b ∧ strFalsy b.query = true) ∨
        strFalsy env.apiKey = true ∨
        (∃ e, env.fetchResult = Except.error e)) →
      (searchHandler env).inserts = []) := by
  have hins : (searchHandler env).inserts = (searchAfterAuth env userId).inserts := by
    rw [searchHandler_auth env h userId hm hh hb hu]
  refine ⟨?_, ?_, ?_, ?_⟩
  · rw [hins]
    unfold searchAfterAuth
    dsimp only
    split
    · simp
    · exact searchProceed_len env userId (currentCountOf env userId)
  · intro hge
    rw [hins]
    unfold searchAfterAuth
    dsimp only
    rw [if_pos hge]
  · intro b q up hlt hbody hq hq2 hkey hfetch
    constructor
    · rw [hins]
      unfold searchAfterAuth
      dsimp only
      rw [if_neg (by omega)]
      exact searchProceed_usage_insert env userId _ b q up hbody hq hq2 hkey hfetch
    · simp only [usageRow, decide_eq_true_eq]
  · intro hlt hz
    rw [hins]
    unfold searchAfterAuth
    dsimp only
    rw [if_neg (by omega)]
    exact searchProceed_no_insert env userId _ hz

/-- Witness for the amended C2 at a successful upstream call. -/
def envC2w : SearchEnv :=
  { method := "POST", authHeader := some "Bearer tok", tokenUser := some "u2"
    ledger := [], countError := none, now := 1000000
    body := Except.ok { query := some "cats", options := none }
    apiKey := some "fc-key", insertError := none
    fetchResult := Except.ok { status := 200, errorField := none, bodyText := "results" } }

/-- Witness for C2 amended: the successful upstream call appends exactly
the usage row with success set. -/
theorem c2_witness :
    currentCountOf envC2w "u2" < RATE_LIMIT_MAX_REQUESTS ∧
    (searchHandler envC2w).inserts =
      [usageRow "u2" "cats" { status := 200, errorField := none, bodyText := "results" }] :=
  ⟨by decide,
    (((c2_audit_trail envC2w "Bearer tok" "u2" (by decide) rfl (by decide) rfl).2.2.1
      { query := some "cats", options := none } "cats"
      { status := 200, errorField := none, bodyText := "results" }
      (by decide) rfl rfl (by decide) (by decide) rfl).1)⟩

/-- Concrete environment refuting C3: a transport-level fetch failure. -/
def envC3 : SearchEnv :=
  { method := "POST", authHeader := some "Bearer tok", tokenUser := some "u3"
    ledger := [], countError := none, now := 1000000
    body := Except.ok { query := some "cats", options := none }
    apiKey := some "fc-key", insertError := none
    fetchResult := Except.error "connection timed out" }

/-- Counterexample to C3: on a transport failure the catch block writes
no ledger entry at all, and the client receives the raw exception
message, not a generic error. -/
theorem c3_counterexample :
    envC3.fetchResult = Except.error "connection timed out" ∧
    (searchHandler envC3).inserts = [] ∧
    (searchHandler envC3).response = errResp 500 "connection timed out" := by decide

/-- C3 amended: when the upstream fetch throws, the handler writes no
UsageLogEntry and answers 500 with the exception message as the error
text of the response body. -/
theorem c3_transport_failure (env : SearchEnv) (h userId : String)
    (b : SearchBody) (q e : String)
    (hm : env.method ≠ "OPTIONS") (hh : env.authHeader = some h)
    (hb : hasBearer h = true) (hu : env.tokenUser = some userId)
    (hlt : currentCountOf env userId < RATE_LIMIT_MAX_REQUESTS)
    (hbody : env.body = Except.ok b) (hq : b.query = some q) (hq2 : q ≠ "")
    (hkey : strFalsy env.apiKey = false)
    (hfetch : env.fetchResult = Except.error e) :
    (searchHandler env).inserts = [] ∧
    (searchHandler env).response = errResp 500 e := by
  have hstep : searchHandler env =
      { searchAfterAuth env userId with
        logLines := ("Authenticated user: " ++ userId) ::
          (searchAfterAuth env userId).logLines } :=
    searchHandler_auth env h userId hm hh hb hu
  have hproc : searchAfterAuth env userId =
      { searchProceed env userId (currentCountOf env userId) with
        logLines := countLogOf env ++
          (searchProceed env userId (currentCountOf env userId)).logLines } := by
    unfold searchAfterAuth
    rw [if_neg (by omega)]
  cases hk : env.apiKey with
  | none => rw [hk] at hkey; simp [strFalsy] at hkey
  | some k =>
    rw [hk] at hkey
    simp only [strFalsy] at hkey
    rw [beq_eq_false_iff_ne] at hkey
    have hpr : searchProceed env userId (currentCountOf env userId) =
        { response := errResp 500 e
          inserts := []
          logLines := ["Searching: " ++ q, "Error searching: " ++ e]
          outbound := some (mkOutbound k q b.options) } := by
      unfold searchProceed
      simp [hbody, hq, hfetch, hk, strFalsy, hq2, hkey]
    rw [hstep, hproc, hpr]
    exact ⟨rfl, rfl⟩

/-- Witness for C3 amended. -/
theorem c3_witness :
    currentCountOf envC3 "u3" < RATE_LIMIT_MAX_REQUESTS ∧
    (searchHandler envC3).inserts = [] ∧
    (searchHandler envC3).response = errResp 500 "connection timed out" :=
  ⟨by decide,
    c3_transport_failure envC3 "Bearer tok" "u3" { query := some "cats", options := none }
      "cats" "connection timed out" (by decide) rfl (by decide) rfl (by decide)
      rfl rfl (by decide) (by decide) rfl⟩

/-- Every row the proxy stage writes is a usage row. -/
theorem searchProceed_mem_insert (env : SearchEnv) (userId : String) (c : Nat)
    (row : InsertRow) (hmem : row ∈ (searchProceed env userId c).inserts) :
    ∃ q up, row = usageRow userId q up := by
  unfold searchProceed at hmem
  repeat' split at hmem
  all_goals simp only [List.mem_singleton, List.not_mem_nil] at hmem
  all_goals exact ⟨_, _, hmem⟩

/-- Concrete environment refuting the write-path half of C8: the usage
insert reports an error, which the handler discards. -/
def envC8 : SearchEnv :=
  { method := "POST", authHeader := some "Bearer tok", tokenUser := some "u8"
    ledger := [], countError := none, now := 1000000
    body := Except.ok { query := some "cats", options := none }
    apiKey := some "fc-key", insertError := some "insert failed"
    fetchResult := Except.ok { status := 200, errorField := none, bodyText := "results" } }

/-- Counterexample to C8: the ledger-write error is discarded — the call
still returns 200, identical to the run where the insert succeeded, so
the write path is not required to succeed. -/
theorem c8_counterexample :
    envC8.insertError = some "insert failed" ∧
    (searchHandler envC8).response.status = 200 ∧
    searchHandler envC8 = searchHandler { envC8 with insertError := none } := by decide

/-- C8 amended: a count-read error degrades to count 0 and the request
proceeds past the limiter (same response, inserts and outbound call as
with an empty window, and never the rate-limit rejection row); the same
leniency extends to the write path, whose error result the handler
never reads. -/
theorem c8_count_fallback (env : SearchEnv) (h userId m : String)
    (hm : env.method ≠ "OPTIONS") (hh : env.authHeader = some h)
    (hb : hasBearer h = true) (hu : env.tokenUser = some userId)
    (hc : env.countError = some m) :
    ((searchHandler env).response =
      (searchHandler { env with countError := none, ledger := [] }).response ∧
     (searchHandler env).inserts =
      (searchHandler { env with countError := none, ledger := [] }).inserts ∧
     (searchHandler env).outbound =
      (searchHandler { env with countError := none, ledger := [] }).outbound) ∧
    rateLimitRow userId ∉ (searchHandler env).inserts ∧
    (∀ ie, searchHandler { env with insertError := ie } = searchHandler env) := by
  have hcc : currentCountOf env userId = 0 := by
    unfold currentCountOf
    rw [hc]
  have hcc2 : currentCountOf { env with countError := none, ledger := [] } userId = 0 := by
    unfold currentCountOf windowCount
    rfl
  have h1 : searchHandler env =
      { searchAfterAuth env userId with
        logLines := ("Authenticated user: " ++ userId) ::
          (searchAfterAuth env userId).logLines } :=
    searchHandler_auth env h userId hm hh hb hu
  have h2 : searchHandler { env with countError := none, ledger := [] } =
      { searchAfterAuth { env with countError := none, ledger := [] } userId with
        logLines := ("Authenticated user: " ++ userId) ::
          (searchAfterAuth { env with countError := none, ledger := [] } userId).logLines } :=
    searchHandler_auth _ h userId hm hh hb hu
  have h3 : searchAfterAuth env userId =
      { searchProceed env userId 0 with
        logLines := countLogOf env ++ (searchProceed env userId 0).logLines } := by
    unfold searchAfterAuth
    rw [hcc]
    rfl
  have h4 : searchAfterAuth { env with countError := none, ledger := [] } userId =
      { searchProceed env userId 0 with
        logLines := (searchProceed env userId 0).logLines } := by
    unfold searchAfterAuth
    rw [hcc2]
    rfl
  refine ⟨⟨?_, ?_, ?_⟩, ?_, fun ie => rfl⟩
  · rw [h1, h2, h3, h4]
  · rw [h1, h2, h3, h4]
  · rw [h1, h2, h3, h4]
  · rw [h1, h3]
    simp only [List.mem_cons]
    have hlen := searchProceed_len env userId 0
    intro hmem
    rcases searchProceed_mem_insert env userId 0 _ hmem with ⟨q2, up2, heq⟩
    simp [rateLimitRow, usageRow] at heq

/-- Concrete environment for the C8 witness: the count read fails. -/
def envC8w : SearchEnv :=
  { method := "POST", authHeader := some "Bearer tok", tokenUser := some "u8"
    ledger := [burstRow 999999], countError := some "db timeout", now := 1000000
    body := Except.ok { query := some "cats", options := none }
    apiKey := some "fc-key", insertError := none
    fetchResult := Except.ok { status := 200, errorField := none, bodyText := "results" } }

/-- Witness for C8 amended: with a failing count read the request is not
rate limited and behaves as if the window were empty. -/
theorem c8_witness :
    envC8w.countError = some "db timeout" ∧
    rateLimitRow "u8" ∉ (searchHandler envC8w).inserts ∧
    (searchHandler envC8w).response =
      (searchHandler { envC8w with countError := none, ledger := [] }).response :=
  ⟨rfl,
    (c8_count_fallback envC8w "Bearer tok" "u8" "db timeout" (by decide) rfl (by decide)
      rfl rfl).2.1,
    (c8_count_fallback envC8w "Bearer tok" "u8" "db timeout" (by decide) rfl (by decide)
      rfl rfl).1.1⟩

/-- A thirty-one day old ledger row for the sweeper examples. -/
def staleRow : LedgerRow :=
  { user_id := "u9", function_name := "search", request_url := none
    request_query := some "old", status_code := some 200
    success := true, error_message := none, created_at := 10000000000000 - 2678400000 }

/-- A one-day old ledger row for the sweeper examples. -/
def freshRow : LedgerRow :=
  { user_id := "u9", function_name := "scrape", request_url := some "https://example.com"
    request_query := none, status_code := some 200
    success := true, error_message := none, created_at := 10000000000000 - 86400000 }

/-- Concrete environment refuting C4: a credential header is present but
does not start with `Bearer `, and the sweeper still deletes. -/
def envC4 : CleanupEnv :=
  { method := "POST", authHeader := some "Basic xyz", tokenUser := none
    adminRow := false, ledger := [staleRow, freshRow], now := 10000000000000
    deleteError := none }

/-- Counterexample to C4: a present-but-malformed credential header
(`Basic xyz`) is not rejected; the handler treats it like the scheduler,
proceeds with service-level privilege and performs the deletion. -/
theorem c4_counterexample :
    envC4.authHeader = some "Basic xyz" ∧
    (cleanupHandler envC4).response.status = 200 ∧
    (cleanupHandler envC4).response.deletedCount = some 1 ∧
    (cleanupHandler envC4).ledgerAfter = [freshRow] := by decide

/-- C4 amended: the sweeper proceeds with service-level privilege when
the credential header is absent or does not start with `Bearer `; only a
`Bearer ` credential is validated as an admin call, in which case an
invalid token yields 401 and a valid token without the admin role yields
403, both without touching the ledger. -/
theorem c4_sweeper_auth (env : CleanupEnv)
    (hm : env.method ≠ "OPTIONS") :
    ((env.authHeader = none ∨
      (∃ h, env.authHeader = some h ∧ hasBearer h = false)) →
      cleanupHandler env = cleanupDelete env ["Cron job triggered cleanup"]) ∧
    (∀ h, env.authHeader = some h → hasBearer h = true → env.tokenUser = none →
      (cleanupHandler env).response.status = 401 ∧
      (cleanupHandler env).ledgerAfter = env.ledger) ∧
    (∀ h u, env.authHeader = some h → hasBearer h = true → env.tokenUser = some u →
      env.adminRow = false →
      (cleanupHandler env).response.status = 403 ∧
      (cleanupHandler env).ledgerAfter = env.ledger) ∧
    (∀ h u, env.authHeader = some h → hasBearer h = true → env.tokenUser = some u →
      env.adminRow = true →
      cleanupHandler env = cleanupDelete env ["Admin triggered cleanup: " ++ u]) := by
  refine ⟨?_, ?_, ?_, ?_⟩
  · rintro (hh | ⟨h, hh, hnb⟩)
    · simp [cleanupHandler, hm, hh]
    · simp [cleanupHandler, hm, hh, hnb]
  · intro h hh hbear htok
    simp [cleanupHandler, hm, hh, hbear, htok]
  · intro h u hh hbear htok hrole
    simp [cleanupHandler, hm, hh, hbear, htok, hrole]
  · intro h u hh hbear htok hrole
    simp [cleanupHandler, hm, hh, hbear, htok, hrole]

/-- Concrete environment for the C4 witness: a valid token whose user
holds no admin role. -/
def envC4w : CleanupEnv :=
  { method := "POST", authHeader := some "Bearer tok", tokenUser := some "u9"
    adminRow := false, ledger := [staleRow, freshRow], now := 10000000000000
    deleteError := none }

/-- Witness for C4 amended: the non-admin authenticated call gets 403
and no deletion happens. -/
theorem c4_witness :
    (cleanupHandler envC4w).response.status = 403 ∧
    (cleanupHandler envC4w).ledgerAfter = envC4w.ledger :=
  (c4_sweeper_auth envC4w (by decide)).2.2.1 "Bearer tok" "u9" rfl (by decide) rfl rfl

/-- C5: with no credential header and a healthy delete, the sweeper
removes exactly the rows strictly older than 30 days, reports their
number as deletedCount, leaves every row inside the horizon (hence
inside any rate window), and a second invocation over the swept ledger
in which no row has newly crossed the horizon deletes zero rows and
still succeeds. -/
theorem c5_sweeper_retention (env : CleanupEnv)
    (hm : env.method ≠ "OPTIONS") (hh : env.authHeader = none)
    (hd : env.deleteError = none) :
    ((cleanupHandler env).response.status = 200 ∧
     (cleanupHandler env).response.success = true ∧
     (cleanupHandler env).response.deletedCount =
       some (env.ledger.filter (fun r =>
         decide (r.created_at < env.now - RETENTION_MS))).length ∧
     (cleanupHandler env).ledgerAfter =
       env.ledger.filter (fun r =>
         !decide (r.created_at < env.now - RETENTION_MS)) ∧
     (∀ r ∈ (cleanupHandler env).ledgerAfter,
       env.now - RETENTION_MS ≤ r.created_at)) ∧
    (∀ env2 : CleanupEnv, env2.method ≠ "OPTIONS" → env2.authHeader = none →
      env2.deleteError = none →
      env2.ledger = (cleanupHandler env).ledgerAfter →
      (∀ r ∈ env2.ledger, ¬ r.created_at < env2.now - RETENTION_MS) →
      (cleanupHandler env2).response.deletedCount = some 0 ∧
      (cleanupHandler env2).response.status = 200 ∧
      (cleanupHandler env2).response.success = true) := by
  have hrun : ∀ env3 : CleanupEnv, env3.method ≠ "OPTIONS" → env3.authHeader = none →
      env3.deleteError = none →
      cleanupHandler env3 =
        { response :=
          { status := 200, success := true, error := none
            message := some ("Deleted " ++
              toString (env3.ledger.filter (fun r =>
                decide (r.created_at < env3.now - RETENTION_MS))).length ++
              " logs older than 30 days")
            deletedCount := some (env3.ledger.filter (fun r =>
              decide (r.created_at < env3.now - RETENTION_MS))).length }
          ledgerAfter := env3.ledger.filter (fun r =>
            !decide (r.created_at < env3.now - RETENTION_MS))
          logLines := ["Cron job triggered cleanup",
            "Cleanup complete: deleted " ++
              toString (env3.ledger.filter (fun r =>
                decide (r.created_at < env3.now - RETENTION_MS))).length ++
              " logs older than 30 days"] } := by
    intro env3 hm3 hh3 hd3
    simp [cleanupHandler, hm3, hh3, cleanupDelete, hd3]
  refine ⟨⟨?_, ?_, ?_, ?_, ?_⟩, ?_⟩
  · rw [hrun env hm hh hd]
  · rw [hrun env hm hh hd]
  · rw [hrun env hm hh hd]
  · rw [hrun env hm hh hd]
  · rw [hrun env hm hh hd]
    intro r hr
    have := List.of_mem_filter hr
    simp only [Bool.not_eq_eq_eq_not, Bool.not_true, decide_eq_false_iff_not] at this
    omega
  · intro env2 hm2 hh2 hd2 hledger hcross
    rw [hrun env2 hm2 hh2 hd2]
    have hempty : env2.ledger.filter (fun r =>
        decide (r.created_at < env2.now - RETENTION_MS)) = [] := by
      rw [List.filter_eq_nil_iff]
      intro r hr
      simp only [decide_eq_true_eq]
      exact hcross r hr
    rw [hempty]
    exact ⟨rfl, rfl, rfl⟩

/-- Concrete environment for the C5 witness: the spec scenario with one
row 31 days old and one row 1 day old. -/
def envC5 : CleanupEnv :=
  { method := "POST", authHeader := none, tokenUser := none
    adminRow := false, ledger := [staleRow, freshRow], now := 10000000000000
    deleteError := none }

/-- The same invocation repeated immediately over the swept ledger. -/
def envC5two : CleanupEnv :=
  { method := "POST", authHeader := none, tokenUser := none
    adminRow := false, ledger := [freshRow], now := 10000000000000
    deleteError := none }

/-- Witness for C5: the first sweep deletes the 31-day-old row and
returns 1; the immediate second sweep deletes nothing and succeeds. -/
theorem c5_witness :
    (cleanupHandler envC5).response.deletedCount = some 1 ∧
    (cleanupHandler envC5).ledgerAfter = [freshRow] ∧
    (cleanupHandler envC5two).response.deletedCount = some 0 ∧
    (cleanupHandler envC5two).response.status = 200 ∧
    (cleanupHandler envC5two).response.success = true := by
  have h1 := (c5_sweeper_retention envC5 (by decide) rfl rfl).1
  have h2 := (c5_sweeper_retention envC5 (by decide) rfl rfl).2 envC5two
    (by decide) rfl rfl (by decide) (by decide)
  refine ⟨?_, ?_, h2.1, h2.2.1, h2.2.2⟩
  · rw [h1.2.2.1]
    decide
  · rw [h1.2.2.2.1]
    decide

/-- Erase the Authorization header of an outbound request, to compare
everything but the credential. -/
def redactAuth (ob : OutboundRequest) : OutboundRequest :=
  { ob with authorization := "REDACTED" }

/-- The proxy stage run with two different non-empty keys produces the
same response, inserts and log lines; the outbound requests agree up to
the Authorization header, which carries exactly the bearer key. -/
theorem searchProceed_key_indep (m : String) (ah tu : Option String)
    (led : List LedgerRow) (ce : Option String) (nowv : Int)
    (bd : Except String SearchBody) (ie : Option String)
    (fr : Except String UpstreamResponse) (userId : String) (c : Nat)
    (k1 k2 : String) (h1 : k1 ≠ "") (h2 : k2 ≠ "") :
    ((searchProceed ⟨m, ah, tu, led, ce, nowv, bd, some k1, ie, fr⟩ userId c).response =
      (searchProceed ⟨m, ah, tu, led, ce, nowv, bd, some k2, ie, fr⟩ userId c).response) ∧
    ((searchProceed ⟨m, ah, tu, led, ce, nowv, bd, some k1, ie, fr⟩ userId c).inserts =
      (searchProceed ⟨m, ah, tu, led, ce, nowv, bd, some k2, ie, fr⟩ userId c).inserts) ∧
    ((searchProceed ⟨m, ah, tu, led, ce, nowv, bd, some k1, ie, fr⟩ userId c).logLines =
      (searchProceed ⟨m, ah, tu, led, ce, nowv, bd, some k2, ie, fr⟩ userId c).logLines) ∧
    ((searchProceed ⟨m, ah, tu, led, ce, nowv, bd, some k1, ie, fr⟩ userId c).outbound.map
        redactAuth =
      (searchProceed ⟨m, ah, tu, led, ce, nowv, bd, some k2, ie, fr⟩ userId c).outbound.map
        redactAuth) ∧
    (∀ ob,
      (searchProceed ⟨m, ah, tu, led, ce, nowv, bd, some k1, ie, fr⟩ userId c).outbound =
        some ob →
      ob.authorization = "Bearer " ++ k1) := by
  cases bd with
  | error e => simp [searchProceed]
  | ok b =>
    cases hq : b.query with
    | none => simp [searchProceed, strFalsy, hq]
    | some q =>
      by_cases hqe : q = ""
      · simp [searchProceed, strFalsy, hq, hqe]
      · cases fr with
        | error e =>
          simp [searchProceed, strFalsy, hq, hqe, h1, h2, mkOutbound, redactAuth]
        | ok up =>
          by_cases hs : 200 ≤ up.status ∧ up.status < 300 <;>
            simp [searchProceed, strFalsy, hq, hqe, h1, h2, hs, mkOutbound, redactAuth]

/-- C9: the handler run with any two non-empty upstream keys yields the
same response, the same ledger inserts and the same log lines; the two
runs differ at most in the outbound Authorization header, which is the
only place the key appears. -/
theorem c9_credential_confinement (env : SearchEnv) (k1 k2 : String)
    (h1 : k1 ≠ "") (h2 : k2 ≠ "") :
    ((searchHandler { env with apiKey := some k1 }).response =
      (searchHandler { env with apiKey := some k2 }).response) ∧
    ((searchHandler { env with apiKey := some k1 }).inserts =
      (searchHandler { env with apiKey := some k2 }).inserts) ∧
    ((searchHandler { env with apiKey := some k1 }).logLines =
      (searchHandler { env with apiKey := some k2 }).logLines) ∧
    ((searchHandler { env with apiKey := some k1 }).outbound.map redactAuth =
      (searchHandler { env with apiKey := some k2 }).outbound.map redactAuth) ∧
    (∀ ob, (searchHandler { env with apiKey := some k1 }).outbound = some ob →
      ob.authorization = "Bearer " ++ k1) := by
  obtain ⟨m, ah, tu, led, ce, nowv, bd, ak, ie, fr⟩ := env
  by_cases hm : m = "OPTIONS"
  · simp [searchHandler, hm]
  · cases ah with
    | none => simp [searchHandler, hm]
    | some h =>
      by_cases hbear : hasBearer h = true
      · cases tu with
        | none => simp [searchHandler, hm, hbear]
        | some userId =>
          cases ce with
          | some msg =>
            have hp := searchProceed_key_indep m (some h) (some userId) led (some msg)
              nowv bd ie fr userId 0 k1 k2 h1 h2
            simp only [searchHandler, searchAfterAuth, currentCountOf, countLogOf,
              if_neg hm, hbear, if_true]
            simp only [RATE_LIMIT_MAX_REQUESTS, Nat.le_zero, OfNat.ofNat_ne_zero,
              if_false, reduceIte]
            exact ⟨hp.1, hp.2.1, by rw [hp.2.2.1], hp.2.2.2.1, hp.2.2.2.2⟩
          | none =>
            by_cases hrl : RATE_LIMIT_MAX_REQUESTS ≤ windowCount led userId nowv
            · simp only [searchHandler, searchAfterAuth, currentCountOf, countLogOf,
                if_neg hm, hbear, if_true, if_pos hrl]
              simp
            · have hp := searchProceed_key_indep m (some h) (some userId) led none
                nowv bd ie fr userId (windowCount led userId nowv) k1 k2 h1 h2
              simp only [searchHandler, searchAfterAuth, currentCountOf, countLogOf,
                if_neg hm, hbear, if_true, if_neg hrl]
              exact ⟨hp.1, hp.2.1, by rw [hp.2.2.1], hp.2.2.2.1, hp.2.2.2.2⟩
      · simp [searchHandler, hm, hbear]

/-- Concrete environment for the C9 witness (the key field is supplied
by the theorem application). -/
def envC9 : SearchEnv :=
  { method := "POST", authHeader := some "Bearer tok", tokenUser := some "u5"
    ledger := [], countError := none, now := 1000000
    body := Except.ok { query := some "cats", options := none }
    apiKey := none, insertError := none
    fetchResult := Except.ok { status := 200, errorField := none, bodyText := "results" } }

/-- Witness for C9 at two concrete keys. -/
theorem c9_witness :
    ((searchHandler { envC9 with apiKey := some "sk-alpha" }).response =
      (searchHandler { envC9 with apiKey := some "sk-beta" }).response) ∧
    ((searchHandler { envC9 with apiKey := some "sk-alpha" }).inserts =
      (searchHandler { envC9 with apiKey := some "sk-beta" }).inserts) ∧
    ((searchHandler { envC9 with apiKey := some "sk-alpha" }).logLines =
      (searchHandler { envC9 with apiKey := some "sk-beta" }).logLines) :=
  ⟨(c9_credential_confinement envC9 "sk-alpha" "sk-beta" (by decide) (by decide)).1,
    (c9_credential_confinement envC9 "sk-alpha" "sk-beta" (by decide) (by decide)).2.1,
    (c9_credential_confinement envC9 "sk-alpha" "sk-beta" (by decide) (by decide)).2.2.1⟩

/-- Unfolding the `byFunction` reduce one row at a time. -/
theorem statsByFunction_go (logs : List LedgerRow) (acc : String → Nat) (fn : String) :
    logs.foldl
      (fun acc log => fun fn => if fn = log.function_name then acc fn + 1 else acc fn)
      acc fn =
      acc fn + (logs.filter (fun l => decide (l.function_name = fn))).length := by
  induction logs generalizing acc with
  | nil => simp
  | cons l ls ih =>
    simp only [List.foldl_cons, List.filter_cons]
    rw [ih]
    by_cases hf : fn = l.function_name
    · subst hf
      simp
      omega
    · have hd : decide (l.function_name = fn) = false := by
        simp only [decide_eq_false_iff_not]
        exact fun hx => hf hx.symm
      rw [if_neg hf, hd]
      simp

/-- Each histogram bucket holds exactly the rows bearing its function
name. -/
theorem statsByFunction_eq_filter (logs : List LedgerRow) (fn : String) :
    statsByFunction logs fn =
      (logs.filter (fun l => decide (l.function_name = fn))).length := by
  unfold statsByFunction
  rw [statsByFunction_go]
  simp

/-- The bucket of `fn` counts the occurrences of `fn` among the rows'
function names. -/
theorem filter_len_count (logs : List LedgerRow) (fn : String) :
    (logs.filter (fun l => decide (l.function_name = fn))).length =
      (logs.map (fun l => l.function_name)).count fn := by
  induction logs with
  | nil => rfl
  | cons l ls ih =>
    simp only [List.filter_cons, List.map_cons, List.count_cons]
    by_cases h : l.function_name = fn
    · simp [h, ih]
    · simp [h, ih]

/-- C7: the dashboard aggregates the at-most-100 most recent ledger rows
(the taken block together with the dropped rest is a permutation of the
ledger, the block is sorted by `created_at` descending, and every taken
row is at least as recent as every dropped row); each aggregated row is
counted in exactly the bucket of its own function name, and the bucket
counts over the distinct function names sum to the total request
count. -/
theorem c7_analytics_aggregation (ledger : List LedgerRow) :
    (recentLogs ledger).length ≤ 100 ∧
    ((recentLogs ledger) ++ (List.insertionSort moreRecent ledger).drop 100).Perm ledger ∧
    (recentLogs ledger).Pairwise moreRecent ∧
    (∀ x ∈ recentLogs ledger, ∀ y ∈ (List.insertionSort moreRecent ledger).drop 100,
      y.created_at ≤ x.created_at) ∧
    (∀ fn, statsByFunction (recentLogs ledger) fn =
      ((recentLogs ledger).filter (fun l => decide (l.function_name = fn))).length) ∧
    (((recentLogs ledger).map (fun l => l.function_name)).dedup.map
      (fun fn => statsByFunction (recentLogs ledger) fn)).sum =
      totalRequests (recentLogs ledger) := by
  have hsorted := List.sorted_insertionSort moreRecent ledger
  have hsplit : List.Pairwise moreRecent
      ((List.insertionSort moreRecent ledger).take 100 ++
        (List.insertionSort moreRecent ledger).drop 100) := by
    rw [List.take_append_drop]
    exact hsorted
  refine ⟨?_, ?_, ?_, ?_, ?_, ?_⟩
  · unfold recentLogs
    simp [List.length_take]
  · unfold recentLogs
    rw [List.take_append_drop]
    exact List.perm_insertionSort moreRecent ledger
  · exact List.Pairwise.sublist (List.take_sublist 100 _) hsorted
  · intro x hx y hy
    exact (List.pairwise_append.mp hsplit).2.2 x hx y hy
  · intro fn
    exact statsByFunction_eq_filter (recentLogs ledger) fn
  · have hmapeq :
        ((recentLogs ledger).map (fun l => l.function_name)).dedup.map
          (fun fn => statsByFunction (recentLogs ledger) fn) =
        ((recentLogs ledger).map (fun l => l.function_name)).dedup.map
          (fun fn => ((recentLogs ledger).map (fun l => l.function_name)).count fn) := by
      apply List.map_congr_left
      intro fn _
      rw [statsByFunction_eq_filter, filter_len_count]
    rw [hmapeq, List.sum_map_count_dedup_eq_length]
    simp [totalRequests]

end QuillScroll
